import Mathlib

/-
  Verification development for the uk-loan-visualizer repository.

  The numeric engine of the repository is JavaScript/TypeScript floating-point
  code; we embed it shallowly with exact real arithmetic (`ℝ`), keeping the
  source structure: the same guards, the same update formulas, the same
  early-return / exception behaviour (`Except String`), and fuel equal to the
  source's own loop caps (the `while` loops are bounded by `months < CAP`,
  so fuel-indexed recursion with fuel = CAP is an exact translation).

  Namespaces:
  * `Engine`   — apps/web/engine.js: `monthlyRateFromAPR`, `simulateLoan`,
                 `simulateApplesPaths`, `computeBreakEvenReturn`,
                 `calculateDualLedgerJourney`.
  * `IndexEngine` — packages/engine/src/index.ts: `annualToMonthlyRate`.
  * `TSEngine` — packages/engine/src/main.ts: `Money` (integer pence),
                 `Loan.monthlyRate`, `requiredMonthlyPayment`,
                 `OverpaymentSimulator.simulate`, `calculateRepaymentJourney`.
-/

set_option maxRecDepth 10000

namespace UKLoan

namespace Engine

/-- Constant `EPS = 1e-9` from engine.js. -/
noncomputable def EPS : ℝ := 1 / 1000000000

/-- Embedding of `monthlyRateFromAPR(aprPercent)` from engine.js:
`Math.pow(1 + Math.max(0, aprPercent) / 100, 1/12) - 1`. -/
noncomputable def monthlyRateFromAPR (aprPercent : ℝ) : ℝ :=
  (1 + max 0 aprPercent / 100) ^ ((1 : ℝ) / 12) - 1

/-- One schedule entry pushed by `simulateLoan` (fields `month`, `balance`
(closing), `interest`, `payment`). -/
structure LoanEntry where
  month : ℕ
  balance : ℝ
  interest : ℝ
  payment : ℝ

/-- Result object of `simulateLoan`: `{months, totalInterest, schedule}`. -/
structure LoanSim where
  months : ℕ
  totalInterest : ℝ
  schedule : List LoanEntry

/-- The `while (balance > EPS && months < CAP)` loop of `simulateLoan`,
with fuel = `CAP - months` (the loop body increments `months`, so the
remaining iteration budget is exactly the fuel). Inside the loop:
`interest = balance * r_m`; if `payment < interest` an error is thrown;
`principal = Math.min(payment - interest, balance)`; `balance -= principal`;
the entry `{month, balance, interest, payment}` is pushed. -/
noncomputable def simulateLoanAux (r_m payment : ℝ) :
    ℕ → ℝ → ℕ → ℝ → List LoanEntry → Except String LoanSim
  | 0, _, months, totalInterest, schedule => .ok ⟨months, totalInterest, schedule⟩
  | fuel + 1, balance, months, totalInterest, schedule =>
    if balance > EPS then
      if payment < balance * r_m then
        .error "Payment is less than interest. Loan balance will grow."
      else
        simulateLoanAux r_m payment fuel
          (balance - min (payment - balance * r_m) balance)
          (months + 1) (totalInterest + balance * r_m)
          (schedule ++ [⟨months + 1, balance - min (payment - balance * r_m) balance,
            balance * r_m, payment⟩])
    else .ok ⟨months, totalInterest, schedule⟩

/-- Embedding of `simulateLoan(balanceStart, r_m, payment, maxMonths)` from
engine.js. `CAP = maxMonths + 120`; `balance = Math.max(0, balanceStart)`. -/
noncomputable def simulateLoan (balanceStart r_m payment : ℝ) (maxMonths : ℕ) :
    Except String LoanSim :=
  simulateLoanAux r_m payment (maxMonths + 120) (max 0 balanceStart) 0 0 []

/-- One per-month record pushed by `simulateApplesPaths` on either path
(fields in source order: `month, balance, interest, payment, investPot,
investContrib, investGrowth, wealth`). -/
structure PathEntry where
  month : ℕ
  balance : ℝ
  interest : ℝ
  payment : ℝ
  investPot : ℝ
  investContrib : ℝ
  investGrowth : ℝ
  wealth : ℝ

/-- The mutable state of the `for (t = 1; t <= N; t++)` loop of
`simulateApplesPaths`: the two loan balances, the two pots, and the two
schedules being pushed to. -/
structure ApplesState where
  balInvest : ℝ
  balOverpay : ℝ
  potInvest : ℝ
  potOverpay : ℝ
  investSched : List PathEntry
  overpaySched : List PathEntry

/-- One iteration (month `t`) of the `simulateApplesPaths` loop.
Path 1 (INVEST): `intI = balInvest*rLoan_m`; `prinI = min(R - intI, balInvest)`;
`balInvest -= prinI`; `growthI = potInvest*rInv_m`; `potInvest += growthI + O`.
Path 2 (OVERPAY): if `t <= M` then `payO = R+O`, `intO = balOverpay*rLoan_m`,
`prinO = min(payO - intO, balOverpay)`, `balOverpay -= prinO`, `contribO = 0`;
else `balOverpay = 0`, `contribO = R+O`, `payO = 0`, `intO = 0`.
Then `growthO = potOverpay*rInv_m`; `potOverpay += growthO + contribO`. -/
noncomputable def applesStep (rLoan_m rInv_m R O : ℝ) (M : ℕ) (t : ℕ)
    (s : ApplesState) : ApplesState :=
  let balInvest := s.balInvest - min (R - s.balInvest * rLoan_m) s.balInvest
  let potInvest := s.potInvest + (s.potInvest * rInv_m + O)
  let balOverpay :=
    if t ≤ M then s.balOverpay - min (R + O - s.balOverpay * rLoan_m) s.balOverpay else 0
  let contribO : ℝ := if t ≤ M then 0 else R + O
  let potOverpay := s.potOverpay + (s.potOverpay * rInv_m + contribO)
  { balInvest := balInvest
    balOverpay := balOverpay
    potInvest := potInvest
    potOverpay := potOverpay
    investSched := s.investSched ++
      [⟨t, balInvest, s.balInvest * rLoan_m, R, potInvest, O,
        s.potInvest * rInv_m, potInvest - balInvest⟩]
    overpaySched := s.overpaySched ++
      [⟨t, balOverpay, (if t ≤ M then s.balOverpay * rLoan_m else 0),
        (if t ≤ M then R + O else 0), potOverpay, contribO,
        s.potOverpay * rInv_m, potOverpay - balOverpay⟩] }

/-- The loop of `simulateApplesPaths`, running months `t, t+1, …` for `rem`
more iterations. -/
noncomputable def applesGo (rLoan_m rInv_m R O : ℝ) (M : ℕ) :
    ℕ → ℕ → ApplesState → ApplesState
  | _, 0, s => s
  | t, rem + 1, s => applesGo rLoan_m rInv_m R O M (t + 1) rem
      (applesStep rLoan_m rInv_m R O M t s)

/-- The per-path result object of `simulateApplesPaths`
(`{months, schedule, totalInterest, finalPot}`). -/
structure PathResult where
  months : ℕ
  schedule : List PathEntry
  totalInterest : ℝ
  finalPot : ℝ

/-- The `atN` summary: final pots and `delta = potOverpay - potInvest`. -/
structure AtN where
  investPot : ℝ
  overpayPot : ℝ
  delta : ℝ

/-- The result of `simulateApplesPaths`. -/
structure ApplesResult where
  investPath : PathResult
  overpayPath : PathResult
  atN : AtN

/-- Embedding of `simulateApplesPaths({P, N, rLoan_m, R, O, M, rAnnual})` from
engine.js: both paths start with balance `P` and pot `0`; the loop runs for
`t = 1..N`; `rInv_m = monthlyRateFromAPR(rAnnual)`; the totals are the sums of
the per-entry `interest` fields and the final pots. -/
noncomputable def simulateApplesPaths (P : ℝ) (N : ℕ) (rLoan_m R O : ℝ) (M : ℕ)
    (rAnnual : ℝ) : ApplesResult :=
  let rInv_m := monthlyRateFromAPR rAnnual
  let final := applesGo rLoan_m rInv_m R O M 1 N ⟨P, P, 0, 0, [], []⟩
  { investPath :=
      { months := N
        schedule := final.investSched
        totalInterest := (final.investSched.map (fun e => e.interest)).sum
        finalPot := final.potInvest }
    overpayPath :=
      { months := N
        schedule := final.overpaySched
        totalInterest := (final.overpaySched.map (fun e => e.interest)).sum
        finalPot := final.potOverpay }
    atN :=
      { investPot := final.potInvest
        overpayPot := final.potOverpay
        delta := final.potOverpay - final.potInvest } }

/-- JavaScript `Math.sign` restricted to the values compared by the solver. -/
noncomputable def jsign (x : ℝ) : ℝ :=
  if 0 < x then 1 else if x < 0 then -1 else 0

/-- The bisection `for (i = 0; i < 50; i++)` loop of `computeBreakEvenReturn`:
`mid = (lo+hi)/2`; if `|deltaAt mid| < 1` return `mid`; narrow the bracket by
sign agreement with `fLo`; after the iterations return `(lo+hi)/2`. -/
noncomputable def breakEvenLoop (P : ℝ) (N : ℕ) (rLoan_m R O : ℝ) (M : ℕ) :
    ℕ → ℝ → ℝ → ℝ → ℝ
  | 0, lo, hi, _ => (lo + hi) / 2
  | fuel + 1, lo, hi, fLo =>
    let mid := (lo + hi) / 2
    let fMid := (simulateApplesPaths P N rLoan_m R O M mid).atN.delta
    if |fMid| < 1 then mid
    else if jsign fMid = jsign fLo then breakEvenLoop P N rLoan_m R O M fuel mid hi fMid
    else breakEvenLoop P N rLoan_m R O M fuel lo mid fLo

/-- Embedding of `computeBreakEvenReturn({P, N, rLoan_m, R, O, M})` from
engine.js: `deltaAt(r) = simulateApplesPaths(..., r).atN.delta`;
`fLo = deltaAt(0)`; if `|fLo| < 1` return `0`; `fHi = deltaAt(100)`;
if `Math.sign(fLo) === Math.sign(fHi)` return `null`; otherwise run the
50-iteration bisection over `[0, 100]`. -/
noncomputable def computeBreakEvenReturn (P : ℝ) (N : ℕ) (rLoan_m R O : ℝ)
    (M : ℕ) : Option ℝ :=
  let fLo := (simulateApplesPaths P N rLoan_m R O M 0).atN.delta
  if |fLo| < 1 then some 0
  else
    let fHi := (simulateApplesPaths P N rLoan_m R O M 100).atN.delta
    if jsign fLo = jsign fHi then none
    else some (breakEvenLoop P N rLoan_m R O M 50 0 100 fLo)

/-- Input object of `calculateDualLedgerJourney`. JavaScript numbers are
modelled as exact reals (the `Number.isFinite` guards are vacuous in this
idealisation, since every real is finite); `remainingTermMonths` is modelled
as an integer, making the `Number.isInteger` guard intrinsic. -/
structure Inputs where
  outstandingBalance : ℝ
  remainingTermMonths : ℤ
  aprPercent : ℝ
  currentMonthlyPayment : ℝ
  monthlyOverpayment : ℝ
  expectedAnnualReturnPercent : ℝ

/-- The `fair` block of the journey result. -/
structure FairBlock where
  requiredMonthlyPayment : ℝ
  investPath : PathResult
  overpayPath : PathResult
  deltaWealthByMonth : List ℝ
  crossoverMonth : Option ℕ
  breakEvenAnnualReturnPercent : Option ℝ
  atN : AtN

/-- The result object assembled by `calculateDualLedgerJourney`. -/
structure JourneyResult where
  baseline : LoanSim
  withOverpay : LoanSim
  interestSaved : ℝ
  monthsSaved : ℕ
  requiredMonthlyPayment : ℝ
  fair : FairBlock

/-- The crossover scan of `calculateDualLedgerJourney`: the first (1-based)
index `i+1` with `deltaWealthByMonth[i] >= 0`, else `null`. -/
noncomputable def crossoverScan : List ℝ → ℕ → Option ℕ
  | [], _ => none
  | d :: rest, i => if 0 ≤ d then some (i + 1) else crossoverScan rest (i + 1)

/-- Embedding of `calculateDualLedgerJourney(inputs)` from engine.js: the five
validation guards (in source order), the `R < firstMonthInterest` guard, the
baseline and overpayment `simulateLoan` runs (whose thrown errors propagate),
`M = withOverpay.months`, `monthsSaved = max(0, baseline.months - M)`
(ℕ-subtraction), `interestSaved = max(0, ...)`, the fair comparison over
`comparisonTerm = baseline.months`, the break-even solve, the per-month wealth
delta and the crossover scan. -/
noncomputable def calculateDualLedgerJourney (i : Inputs) :
    Except String JourneyResult :=
  if i.outstandingBalance ≤ 0 then .error "Outstanding balance must be > 0."
  else if i.remainingTermMonths < 1 then .error "Remaining term must be ≥ 1."
  else if i.aprPercent < 0 then .error "APR must be ≥ 0."
  else if i.currentMonthlyPayment ≤ 0 then
    .error "Current monthly payment must be > 0."
  else if i.monthlyOverpayment < 0 then .error "Monthly overpayment must be ≥ 0."
  else if i.currentMonthlyPayment <
      i.outstandingBalance * monthlyRateFromAPR i.aprPercent then
    .error "Current payment is less than the first month's interest. The loan balance will increase."
  else
    match simulateLoan i.outstandingBalance (monthlyRateFromAPR i.aprPercent)
        i.currentMonthlyPayment i.remainingTermMonths.toNat with
    | .error e => .error e
    | .ok baseline =>
      match simulateLoan i.outstandingBalance (monthlyRateFromAPR i.aprPercent)
          (i.currentMonthlyPayment + i.monthlyOverpayment)
          i.remainingTermMonths.toNat with
      | .error e => .error e
      | .ok withOverpay =>
        let fairPaths := simulateApplesPaths i.outstandingBalance baseline.months
          (monthlyRateFromAPR i.aprPercent) i.currentMonthlyPayment
          i.monthlyOverpayment withOverpay.months i.expectedAnnualReturnPercent
        let deltaWealthByMonth := List.zipWith (fun (p q : PathEntry) => p.wealth - q.wealth)
          fairPaths.overpayPath.schedule fairPaths.investPath.schedule
        .ok
          { baseline := baseline
            withOverpay := withOverpay
            interestSaved := max 0 (baseline.totalInterest - withOverpay.totalInterest)
            monthsSaved := baseline.months - withOverpay.months
            requiredMonthlyPayment := i.currentMonthlyPayment
            fair :=
              { requiredMonthlyPayment := i.currentMonthlyPayment
                investPath := fairPaths.investPath
                overpayPath := fairPaths.overpayPath
                deltaWealthByMonth := deltaWealthByMonth
                crossoverMonth := crossoverScan deltaWealthByMonth 0
                breakEvenAnnualReturnPercent := computeBreakEvenReturn
                  i.outstandingBalance baseline.months
                  (monthlyRateFromAPR i.aprPercent) i.currentMonthlyPayment
                  i.monthlyOverpayment withOverpay.months
                atN := fairPaths.atN } }

end Engine

namespace IndexEngine

/-- Embedding of `annualToMonthlyRate(annualPercent)` from
packages/engine/src/index.ts:
`annualPercent <= 0 ? 0 : Math.pow(1 + annualPercent / 100, 1/12) - 1`. -/
noncomputable def annualToMonthlyRate (annualPercent : ℝ) : ℝ :=
  if annualPercent ≤ 0 then 0
  else (1 + annualPercent / 100) ^ ((1 : ℝ) / 12) - 1

end IndexEngine

namespace TSEngine

/-- Embedding of `Loan.monthlyRate()` from packages/engine/src/main.ts:
`this.aprPercent === 0 ? 0 : (this.aprPercent / 100) / 12`. -/
noncomputable def Loan.monthlyRate (aprPercent : ℝ) : ℝ :=
  if aprPercent = 0 then 0 else aprPercent / 100 / 12

/-- Embedding of `Loan.requiredMonthlyPayment()` from main.ts. `Money` values
are integer pence; `toNumber()` is division by 100 and `Money.fromPounds`
is `Math.round(amount * 100)` (Lean `round` is `⌊x + 1/2⌋`, exactly
JavaScript `Math.round` behaviour). For monthly rate `r = 0` the payment is
`P / n` pounds, otherwise the annuity formula `P*r / (1 - (1+r)^(-n))`. -/
noncomputable def requiredMonthlyPayment (principalPence : ℤ) (remainingMonths : ℕ)
    (aprPercent : ℝ) : ℤ :=
  let P : ℝ := (principalPence : ℝ) / 100
  let r := Loan.monthlyRate aprPercent
  let paymentPounds : ℝ :=
    if r = 0 then P / remainingMonths
    else P * r / (1 - (1 + r) ^ (-(remainingMonths : ℤ)))
  round (paymentPounds * 100)

/-- One `ScheduleEntry` pushed by `OverpaymentSimulator.simulate` (all money
fields are `toNumber()` pounds values). -/
structure ScheduleEntry where
  monthIndex : ℕ
  openingBalance : ℝ
  interest : ℝ
  principal : ℝ
  overpayment : ℝ
  requiredPayment : ℝ
  closingBalance : ℝ

/-- The `Simulation` result of main.ts (`{schedule, months, totalInterest}`,
with `months = schedule.length` and `totalInterest` in pounds). -/
structure Simulation where
  schedule : List ScheduleEntry
  months : ℕ
  totalInterest : ℝ

/-- The `while (!balance.isZero() && month < MAX_MONTHS)` loop of
`OverpaymentSimulator.simulate`, fuel = remaining iteration budget. Balances
and the interest total are integer pence (`Money`); per month:
`interest = Money.fromPence(Math.round(opening.pence * r))`;
`principalPay = max(0, requiredPay + overpay - interest)` clamped to
`opening`; `closing = opening - principalPay`. -/
noncomputable def simulateAux (r : ℝ) (requiredPay overpay : ℤ) :
    ℕ → ℤ → ℕ → ℤ → List ScheduleEntry → Simulation
  | 0, _, _, totalInterest, schedule =>
    ⟨schedule, schedule.length, (totalInterest : ℝ) / 100⟩
  | fuel + 1, balance, month, totalInterest, schedule =>
    if balance = 0 then ⟨schedule, schedule.length, (totalInterest : ℝ) / 100⟩
    else
      let interest : ℤ := round ((balance : ℝ) * r)
      let principalPay0 : ℤ := requiredPay + overpay - interest
      let principalPay : ℤ := min (if principalPay0 < 0 then 0 else principalPay0) balance
      simulateAux r requiredPay overpay fuel (balance - principalPay) (month + 1)
        (totalInterest + interest)
        (schedule ++ [⟨month, (balance : ℝ) / 100, (interest : ℝ) / 100,
          (principalPay : ℝ) / 100, (overpay : ℝ) / 100, (requiredPay : ℝ) / 100,
          ((balance - principalPay : ℤ) : ℝ) / 100⟩])

/-- Embedding of `OverpaymentSimulator.simulate(monthlyOverpayment)` from
main.ts: rejects a negative overpayment, then runs the loop with
`MAX_MONTHS = remainingMonths + 6000`, starting from the loan principal. -/
noncomputable def simulate (principalPence : ℤ) (remainingMonths : ℕ)
    (aprPercent : ℝ) (overpayPence : ℤ) : Except String Simulation :=
  if overpayPence < 0 then .error "monthlyOverpayment cannot be negative"
  else .ok (simulateAux (Loan.monthlyRate aprPercent)
    (requiredMonthlyPayment principalPence remainingMonths aprPercent) overpayPence
    (remainingMonths + 6000) principalPence 0 0 [])

/-- Input object of `calculateRepaymentJourney` (main.ts). As with the
dual-ledger facade, JavaScript numbers are exact reals (the
`Number.isFinite` guards are vacuous) and `remainingTermMonths` is an
integer, making the `Number.isInteger` guard intrinsic. -/
structure LoanInput where
  outstandingBalance : ℝ
  remainingTermMonths : ℤ
  aprPercent : ℝ
  monthlyOverpayment : ℝ

/-- The `RepaymentJourney` result object of main.ts (`schedule` aliases
`withOverpay.schedule`). -/
structure RepaymentJourney where
  baseline : Simulation
  withOverpay : Simulation
  interestSaved : ℝ
  monthsSaved : ℕ
  schedule : List ScheduleEntry

/-- Embedding of the facade `calculateRepaymentJourney(input)` from main.ts:
one combined `invalid` guard — `outstandingBalance < 0`, `aprPercent < 0`,
`remainingTermMonths < 1`, `monthlyOverpayment < 0`, in source order — then
two `OverpaymentSimulator.simulate` runs on the `Money.fromPounds` principal
(`round(pounds * 100)` pence), with overpayments `Money.fromPounds(0)` and
`Money.fromPounds(monthlyOverpayment)`;
`interestSaved = max(0, baseline.totalInterest - withOverpay.totalInterest)`,
`monthsSaved = max(0, baseline.months - withOverpay.months)` (ℕ-subtraction).
Note the balance guard is strict negativity: a zero balance passes. -/
noncomputable def calculateRepaymentJourney (i : LoanInput) :
    Except String RepaymentJourney :=
  if i.outstandingBalance < 0 ∨ i.aprPercent < 0 ∨ i.remainingTermMonths < 1 ∨
      i.monthlyOverpayment < 0 then
    .error "Invalid inputs: values must be finite; balances/rates/overpayment >= 0; months >= 1."
  else
    match simulate (round (i.outstandingBalance * 100)) i.remainingTermMonths.toNat
        i.aprPercent (round ((0 : ℝ) * 100)) with
    | .error e => .error e
    | .ok baseline =>
      match simulate (round (i.outstandingBalance * 100)) i.remainingTermMonths.toNat
          i.aprPercent (round (i.monthlyOverpayment * 100)) with
      | .error e => .error e
      | .ok withOverpay =>
        .ok { baseline := baseline
              withOverpay := withOverpay
              interestSaved := max 0 (baseline.totalInterest - withOverpay.totalInterest)
              monthsSaved := baseline.months - withOverpay.months
              schedule := withOverpay.schedule }

end TSEngine

/- ===== Shared helper lemmas ===== -/

namespace Engine

/-- At 0% APR the converted monthly rate is exactly 0. -/
lemma monthlyRateFromAPR_zero : monthlyRateFromAPR 0 = 0 := by
  rw [monthlyRateFromAPR]
  norm_num

/-- At 100% APR the converted monthly rate is the twelfth root of 2, minus 1. -/
lemma monthlyRateFromAPR_hundred :
    monthlyRateFromAPR 100 = (2 : ℝ) ^ ((1 : ℝ) / 12) - 1 := by
  rw [monthlyRateFromAPR]
  norm_num

/-- The twelfth root of 2, raised back to the 12th power, is 2. -/
lemma twelfthRootTwo_pow : ((2 : ℝ) ^ ((1 : ℝ) / 12)) ^ (12 : ℕ) = 2 := by
  rw [← Real.rpow_natCast ((2 : ℝ) ^ ((1 : ℝ) / 12)) 12,
    ← Real.rpow_mul (show (0 : ℝ) ≤ 2 by norm_num)]
  norm_num

/-- Upper bound used to settle solver sign questions: 2^(1/12) < 1.06. -/
lemma twelfthRootTwo_lt : (2 : ℝ) ^ ((1 : ℝ) / 12) < 1.06 := by
  have h2 : ((2 : ℝ) ^ ((1 : ℝ) / 12)) ^ (12 : ℕ) < (1.06 : ℝ) ^ (12 : ℕ) := by
    rw [twelfthRootTwo_pow]; norm_num
  exact lt_of_pow_lt_pow_left₀ 12 (by norm_num) h2

/-- Lower bound: 1.001 < 2^(1/12). -/
lemma lt_twelfthRootTwo : (1.001 : ℝ) < (2 : ℝ) ^ ((1 : ℝ) / 12) := by
  have h0 : (0 : ℝ) ≤ (2 : ℝ) ^ ((1 : ℝ) / 12) :=
    le_of_lt (Real.rpow_pos_of_pos (by norm_num) _)
  have h2 : (1.001 : ℝ) ^ (12 : ℕ) < ((2 : ℝ) ^ ((1 : ℝ) / 12)) ^ (12 : ℕ) := by
    rw [twelfthRootTwo_pow]; norm_num
  exact lt_of_pow_lt_pow_left₀ 12 h0 h2

/-- When the balance has dropped to (or below) `EPS`, the loop exits with the
accumulated result, whatever fuel remains. -/
lemma simulateLoanAux_stop (r_m payment : ℝ) (fuel : ℕ) (balance : ℝ) (months : ℕ)
    (totalInterest : ℝ) (schedule : List LoanEntry) (h : ¬ balance > EPS) :
    simulateLoanAux r_m payment fuel balance months totalInterest schedule =
      .ok ⟨months, totalInterest, schedule⟩ := by
  cases fuel <;> simp [simulateLoanAux, h]

/-- One non-throwing iteration of the `simulateLoan` loop. -/
lemma simulateLoanAux_step (r_m payment : ℝ) (fuel : ℕ) (balance : ℝ) (months : ℕ)
    (totalInterest : ℝ) (schedule : List LoanEntry) (h : balance > EPS)
    (h2 : ¬ payment < balance * r_m) :
    simulateLoanAux r_m payment (fuel + 1) balance months totalInterest schedule =
      simulateLoanAux r_m payment fuel
        (balance - min (payment - balance * r_m) balance)
        (months + 1) (totalInterest + balance * r_m)
        (schedule ++ [⟨months + 1, balance - min (payment - balance * r_m) balance,
          balance * r_m, payment⟩]) := by
  simp [simulateLoanAux, h, h2]

/-- Concrete run: a one-pound loan at rate 0 with payment 1 clears in one
month. -/
lemma simLoan_one : simulateLoan 1 0 1 1 = .ok ⟨1, 0, [⟨1, 0, 0, 1⟩]⟩ := by
  rw [simulateLoan, show (max (0 : ℝ) 1) = 1 by norm_num,
    show ((1 : ℕ) + 120) = 120 + 1 from rfl,
    simulateLoanAux_step 0 1 120 1 0 0 [] (by norm_num [EPS]) (by norm_num)]
  norm_num
  rw [simulateLoanAux_stop 0 1 120 0 1 0 [⟨1, 0, 0, 1⟩] (by norm_num [EPS])]

/-- Concrete run: balance 1000 at rate 0, payment 400, three months. -/
lemma simLoan_b1000_p400 : simulateLoan 1000 0 400 3 =
    .ok ⟨3, 0, [⟨1, 600, 0, 400⟩, ⟨2, 200, 0, 400⟩, ⟨3, 0, 0, 400⟩]⟩ := by
  rw [simulateLoan, show (max (0 : ℝ) 1000) = 1000 by norm_num,
    show ((3 : ℕ) + 120) = 122 + 1 from rfl,
    simulateLoanAux_step 0 400 122 1000 0 0 [] (by norm_num [EPS]) (by norm_num)]
  norm_num
  rw [show (122 : ℕ) = 121 + 1 from rfl,
    simulateLoanAux_step 0 400 121 600 1 0 [⟨1, 600, 0, 400⟩]
      (by norm_num [EPS]) (by norm_num)]
  norm_num
  rw [show (121 : ℕ) = 120 + 1 from rfl,
    simulateLoanAux_step 0 400 120 200 2 0 [⟨1, 600, 0, 400⟩, ⟨2, 200, 0, 400⟩]
      (by norm_num [EPS]) (by norm_num)]
  norm_num
  rw [simulateLoanAux_stop 0 400 120 0 3 0 _ (by norm_num [EPS])]

/-- Concrete run: balance 1000 at rate 0, payment 550, clears in two months. -/
lemma simLoan_b1000_p550 : simulateLoan 1000 0 550 3 =
    .ok ⟨2, 0, [⟨1, 450, 0, 550⟩, ⟨2, 0, 0, 550⟩]⟩ := by
  rw [simulateLoan, show (max (0 : ℝ) 1000) = 1000 by norm_num,
    show ((3 : ℕ) + 120) = 122 + 1 from rfl,
    simulateLoanAux_step 0 550 122 1000 0 0 [] (by norm_num [EPS]) (by norm_num)]
  norm_num
  rw [show (122 : ℕ) = 121 + 1 from rfl,
    simulateLoanAux_step 0 550 121 450 1 0 [⟨1, 450, 0, 550⟩]
      (by norm_num [EPS]) (by norm_num)]
  norm_num
  rw [simulateLoanAux_stop 0 550 121 0 2 0 _ (by norm_num [EPS])]

/-- Concrete run: balance 10 at rate 0, payment 9/2, three months. -/
lemma simLoan_b10_p45 : simulateLoan 10 0 (9 / 2) 3 =
    .ok ⟨3, 0, [⟨1, 11 / 2, 0, 9 / 2⟩, ⟨2, 1, 0, 9 / 2⟩, ⟨3, 0, 0, 9 / 2⟩]⟩ := by
  rw [simulateLoan, show (max (0 : ℝ) 10) = 10 by norm_num,
    show ((3 : ℕ) + 120) = 122 + 1 from rfl,
    simulateLoanAux_step 0 (9 / 2) 122 10 0 0 [] (by norm_num [EPS]) (by norm_num)]
  norm_num
  rw [show (122 : ℕ) = 121 + 1 from rfl,
    simulateLoanAux_step 0 (9 / 2) 121 (11 / 2) 1 0 [⟨1, 11 / 2, 0, 9 / 2⟩]
      (by norm_num [EPS]) (by norm_num)]
  norm_num
  rw [show (121 : ℕ) = 120 + 1 from rfl,
    simulateLoanAux_step 0 (9 / 2) 120 1 2 0 [⟨1, 11 / 2, 0, 9 / 2⟩, ⟨2, 1, 0, 9 / 2⟩]
      (by norm_num [EPS]) (by norm_num)]
  norm_num
  rw [simulateLoanAux_stop 0 (9 / 2) 120 0 3 0 _ (by norm_num [EPS])]

/-- Concrete run: balance 10 at rate 0, payment 13/2, clears in two months. -/
lemma simLoan_b10_p65 : simulateLoan 10 0 (13 / 2) 3 =
    .ok ⟨2, 0, [⟨1, 7 / 2, 0, 13 / 2⟩, ⟨2, 0, 0, 13 / 2⟩]⟩ := by
  rw [simulateLoan, show (max (0 : ℝ) 10) = 10 by norm_num,
    show ((3 : ℕ) + 120) = 122 + 1 from rfl,
    simulateLoanAux_step 0 (13 / 2) 122 10 0 0 [] (by norm_num [EPS]) (by norm_num)]
  norm_num
  rw [show (122 : ℕ) = 121 + 1 from rfl,
    simulateLoanAux_step 0 (13 / 2) 121 (7 / 2) 1 0 [⟨1, 7 / 2, 0, 13 / 2⟩]
      (by norm_num [EPS]) (by norm_num)]
  norm_num
  rw [simulateLoanAux_stop 0 (13 / 2) 121 0 2 0 _ (by norm_num [EPS])]

/-- Concrete run with a fractional-pence interest figure: balance 1000 at
monthly rate 1/3000, payment 2000 — month 1 interest is exactly 1/3 pound. -/
lemma simLoan_fractional : simulateLoan 1000 (1 / 3000) 2000 12 =
    .ok ⟨1, 1 / 3, [⟨1, 0, 1 / 3, 2000⟩]⟩ := by
  rw [simulateLoan, show (max (0 : ℝ) 1000) = 1000 by norm_num,
    show ((12 : ℕ) + 120) = 131 + 1 from rfl,
    simulateLoanAux_step (1 / 3000) 2000 131 1000 0 0 []
      (by norm_num [EPS]) (by norm_num)]
  norm_num
  rw [simulateLoanAux_stop (1 / 3000) 2000 131 0 1 (1 / 3) _ (by norm_num [EPS])]

/-- Unfolding lemma: zero remaining iterations. -/
lemma applesGo_zero (rLoan_m rInv_m R O : ℝ) (M t : ℕ) (s : ApplesState) :
    applesGo rLoan_m rInv_m R O M t 0 s = s := rfl

/-- Unfolding lemma: one more iteration. -/
lemma applesGo_succ (rLoan_m rInv_m R O : ℝ) (M t rem : ℕ) (s : ApplesState) :
    applesGo rLoan_m rInv_m R O M t (rem + 1) s =
      applesGo rLoan_m rInv_m R O M (t + 1) rem
        (applesStep rLoan_m rInv_m R O M t s) := rfl

/-- A one-month run of the apples loop is a single step. -/
lemma applesGo_one (rLoan_m rInv_m R O : ℝ) (M : ℕ) (s : ApplesState) :
    applesGo rLoan_m rInv_m R O M 1 1 s = applesStep rLoan_m rInv_m R O M 1 s := rfl

/-- A three-month run of the apples loop is three steps. -/
lemma applesGo_three (rLoan_m rInv_m R O : ℝ) (M : ℕ) (s : ApplesState) :
    applesGo rLoan_m rInv_m R O M 1 3 s =
      applesStep rLoan_m rInv_m R O M 3
        (applesStep rLoan_m rInv_m R O M 2 (applesStep rLoan_m rInv_m R O M 1 s)) := rfl

/-- Final-pot delta of the apples simulation for `P = 1000`, `N = 3`,
`rLoan_m = 0`, `R = 400`, `O = 150`, `M = 2`, as a polynomial in the
converted monthly investment rate. -/
lemma applesDelta_b1000 (rA : ℝ) :
    (simulateApplesPaths 1000 3 0 400 150 2 rA).atN.delta =
      550 - (150 * monthlyRateFromAPR rA ^ 2 + 450 * monthlyRateFromAPR rA + 450) := by
  simp only [simulateApplesPaths, applesGo_three]
  simp [applesStep]
  ring

/-- Final-pot delta of the apples simulation for `P = 10`, `N = 3`,
`rLoan_m = 0`, `R = 9/2`, `O = 2`, `M = 2`. -/
lemma applesDelta_b10 (rA : ℝ) :
    (simulateApplesPaths 10 3 0 (9 / 2) 2 2 rA).atN.delta =
      13 / 2 - (2 * monthlyRateFromAPR rA ^ 2 + 6 * monthlyRateFromAPR rA + 6) := by
  simp only [simulateApplesPaths, applesGo_three]
  simp [applesStep]
  ring

/-- On a positive argument, the JavaScript sign function returns 1. -/
lemma jsign_pos {x : ℝ} (h : 0 < x) : jsign x = 1 := by
  rw [jsign, if_pos h]

/-- The b1000 delta at a 100% annual return is still positive: with
`g = 2^(1/12)` the invest pot `150(g² + g + 1)` stays below the overpay
pot 550. -/
lemma applesDelta_b1000_hundred_pos :
    0 < (simulateApplesPaths 1000 3 0 400 150 2 100).atN.delta := by
  rw [applesDelta_b1000, monthlyRateFromAPR_hundred]
  nlinarith [twelfthRootTwo_lt, lt_twelfthRootTwo,
    sq_nonneg ((2 : ℝ) ^ ((1 : ℝ) / 12) - 1)]

/-- The b10 delta at a 100% annual return is positive: `2(g² + g + 1) < 13/2`
for `g = 2^(1/12) < 1.06`. -/
lemma applesDelta_b10_hundred_pos :
    0 < (simulateApplesPaths 10 3 0 (9 / 2) 2 2 100).atN.delta := by
  rw [applesDelta_b10, monthlyRateFromAPR_hundred]
  nlinarith [twelfthRootTwo_lt, lt_twelfthRootTwo,
    sq_nonneg ((2 : ℝ) ^ ((1 : ℝ) / 12) - 1)]

/-- The solver on the b1000 scenario: delta at 0% is 100 (≥ tolerance) and
delta at 100% is also positive, so the sign test fires and `null` is
returned. -/
lemma breakEven_b1000 : computeBreakEvenReturn 1000 3 0 400 150 2 = none := by
  rw [computeBreakEvenReturn]
  rw [if_neg (by rw [applesDelta_b1000, monthlyRateFromAPR_zero]; norm_num)]
  rw [if_pos]
  rw [jsign_pos (show (0:ℝ) < (simulateApplesPaths 1000 3 0 400 150 2 0).atN.delta by
        rw [applesDelta_b1000, monthlyRateFromAPR_zero]; norm_num),
    jsign_pos applesDelta_b1000_hundred_pos]

/-- The solver on the b10 scenario: delta at 0% is 1/2, inside the £1
tolerance, so 0% is returned immediately. -/
lemma breakEven_b10 : computeBreakEvenReturn 10 3 0 (9 / 2) 2 2 = some 0 := by
  rw [computeBreakEvenReturn]
  rw [if_pos (by rw [applesDelta_b10, monthlyRateFromAPR_zero]; norm_num [abs_lt])]

/-- End-to-end run of the journey on the b1000 scenario, projected on the
reported break-even rate: the facade accepts the input and the solver
returns `null`. -/
lemma journey_b1000_breakEven :
    (calculateDualLedgerJourney ⟨1000, 3, 0, 400, 150, 5⟩).map
      (fun r => r.fair.breakEvenAnnualReturnPercent) = .ok none := by
  rw [calculateDualLedgerJourney]
  simp only [monthlyRateFromAPR_zero]
  rw [if_neg (by norm_num), if_neg (by norm_num), if_neg (by norm_num),
    if_neg (by norm_num), if_neg (by norm_num), if_neg (by norm_num)]
  rw [show ((3 : ℤ).toNat) = 3 from rfl]
  rw [simLoan_b1000_p400, show ((400 : ℝ) + 150) = 550 by norm_num, simLoan_b1000_p550]
  simp [Except.map, breakEven_b1000]

/-- End-to-end run of the journey on the b10 scenario, projected on the
reported break-even rate: the facade accepts the input and the solver
returns 0%. -/
lemma journey_b10_breakEven :
    (calculateDualLedgerJourney ⟨10, 3, 0, 9 / 2, 2, 5⟩).map
      (fun r => r.fair.breakEvenAnnualReturnPercent) = .ok (some 0) := by
  rw [calculateDualLedgerJourney]
  simp only [monthlyRateFromAPR_zero]
  rw [if_neg (by norm_num), if_neg (by norm_num), if_neg (by norm_num),
    if_neg (by norm_num), if_neg (by norm_num), if_neg (by norm_num)]
  rw [show ((3 : ℤ).toNat) = 3 from rfl]
  rw [simLoan_b10_p45, show ((9 : ℝ) / 2 + 2) = 13 / 2 by norm_num, simLoan_b10_p65]
  simp [Except.map, breakEven_b10]

/-- Loop invariant of `simulateLoan`: on a successful run the month count
never exceeds the remaining fuel budget, and a stop strictly before the
budget is exhausted can only happen with the running balance (the last
recorded closing balance) at or below `EPS`. -/
lemma simulateLoanAux_ok_bounds (r_m payment d : ℝ) :
    ∀ (fuel : ℕ) (balance : ℝ) (months : ℕ) (ti : ℝ) (sch : List LoanEntry),
      (sch.map (fun e => e.balance)).getLastD d = balance →
      ∀ res, simulateLoanAux r_m payment fuel balance months ti sch = .ok res →
        res.months ≤ months + fuel ∧
          (res.months < months + fuel →
            (res.schedule.map (fun e => e.balance)).getLastD d ≤ EPS) := by
  intro fuel
  induction fuel with
  | zero =>
    intro balance months ti sch _ res hres
    rw [simulateLoanAux] at hres
    cases hres
    refine ⟨?_, fun h => ?_⟩
    · show months ≤ months + 0
      omega
    · exact absurd h (by show ¬ months < months + 0; omega)
  | succ fuel ih =>
    intro balance months ti sch hlast res hres
    by_cases hbe : balance > EPS
    · rw [simulateLoanAux, if_pos hbe] at hres
      by_cases hpi : payment < balance * r_m
      · rw [if_pos hpi] at hres
        exact absurd hres (by simp)
      · rw [if_neg hpi] at hres
        have hlast2 : (((sch ++ [(⟨months + 1,
            balance - min (payment - balance * r_m) balance,
            balance * r_m, payment⟩ : LoanEntry)]).map (fun e => e.balance)).getLastD d) =
            balance - min (payment - balance * r_m) balance := by
          rw [List.map_append]
          exact List.getLastD_concat _ _ _
        have h := ih (balance - min (payment - balance * r_m) balance)
          (months + 1) (ti + balance * r_m) _ hlast2 res hres
        exact ⟨by omega, fun hlt => h.2 (by omega)⟩
    · rw [simulateLoanAux_stop _ _ _ _ _ _ _ hbe] at hres
      cases hres
      refine ⟨?_, fun _ => ?_⟩
      · show months ≤ months + (fuel + 1)
        omega
      · show ((sch.map (fun e => e.balance)).getLastD d) ≤ EPS
        rw [hlast]
        exact le_of_not_lt hbe

/-- With monthly rate 0 and a constant payment `q` that cannot bring the
balance within `EPS` of zero inside the fuel budget, the loop runs the whole
budget: `fuel` months elapse, no interest accrues, and the final recorded
balance is `balance - fuel * q`. -/
lemma simulateLoanAux_zero_rate (q d : ℝ) (hq : 0 ≤ q) :
    ∀ (fuel : ℕ) (balance : ℝ) (months : ℕ) (ti : ℝ) (sch : List LoanEntry),
      EPS < balance - fuel * q →
      (sch.map (fun e => e.balance)).getLastD d = balance →
      ∃ sch2, simulateLoanAux 0 q fuel balance months ti sch =
          .ok ⟨months + fuel, ti, sch2⟩ ∧
        (sch2.map (fun e => e.balance)).getLastD d = balance - fuel * q := by
  intro fuel
  induction fuel with
  | zero =>
    intro balance months ti sch _ hlast
    refine ⟨sch, ?_, by rw [hlast]; norm_num⟩
    rw [simulateLoanAux]
    norm_num
  | succ fuel ih =>
    intro balance months ti sch hgap hlast
    have heps : (0 : ℝ) < EPS := by norm_num [EPS]
    have hfq : 0 ≤ (fuel : ℝ) * q := by positivity
    push_cast at hgap
    have hbal : balance > EPS := by nlinarith
    have hqb : q ≤ balance := by nlinarith
    have hmin : min (q - balance * 0) balance = q := by
      rw [mul_zero, sub_zero]
      exact min_eq_left hqb
    rw [simulateLoanAux_step 0 q fuel balance months ti sch hbal
      (by rw [mul_zero]; exact not_lt.mpr hq), hmin]
    have hlast2 : (((sch ++ [(⟨months + 1, balance - q, balance * 0, q⟩ :
        LoanEntry)]).map (fun e => e.balance)).getLastD d) = balance - q := by
      rw [List.map_append]
      exact List.getLastD_concat _ _ _
    have hgap2 : EPS < (balance - q) - fuel * q := by nlinarith
    obtain ⟨sch2, hrun, hlast3⟩ := ih (balance - q) (months + 1)
      (ti + balance * 0) _ hgap2 hlast2
    refine ⟨sch2, ?_, by rw [hlast3]; push_cast; ring⟩
    have hnat : months + 1 + fuel = months + (fuel + 1) := by omega
    rw [hrun, hnat, mul_zero, add_zero]

/-- End-to-end run of the journey on a validated input with a tiny payment
(balance 1000, term 3, APR 0, payment 1/1000, no overpayment): the facade
accepts it, the baseline loop runs to its safety cap `CAP = 3 + 120 = 123`,
and the last recorded balance is `1000 - 123/1000`, far from zero. -/
lemma journey_smallpay :
    (calculateDualLedgerJourney ⟨1000, 3, 0, 1 / 1000, 0, 0⟩).map
      (fun r => (r.baseline.months,
        (r.baseline.schedule.map (fun e => e.balance)).getLastD 1000)) =
      .ok (123, 1000 - 123 * (1 / 1000)) := by
  obtain ⟨sch2, hrun, hlast⟩ := simulateLoanAux_zero_rate (1 / 1000) 1000
    (by norm_num) 123 1000 0 0 [] (by push_cast; norm_num [EPS]) (by simp)
  rw [calculateDualLedgerJourney]
  simp only [monthlyRateFromAPR_zero]
  rw [if_neg (by norm_num), if_neg (by norm_num), if_neg (by norm_num),
    if_neg (by norm_num), if_neg (by norm_num), if_neg (by norm_num)]
  rw [show ((3 : ℤ).toNat) = 3 from rfl,
    show ((1 : ℝ) / 1000 + 0) = 1 / 1000 by norm_num, simulateLoan,
    show (max (0 : ℝ) 1000) = 1000 by norm_num,
    show ((3 : ℕ) + 120) = 123 from rfl, hrun]
  simp [Except.map]
  simp at hlast
  rw [hlast]

/-- Delta of the one-month apples run with `P = R = 1`, `O = 0`, `M = 1`:
both pots stay at zero, so the delta is 0 at every rate. -/
lemma applesDelta_one (rA : ℝ) :
    (simulateApplesPaths 1 1 0 1 0 1 rA).atN.delta = 0 := by
  simp only [simulateApplesPaths, applesGo_one]
  simp [applesStep]

/-- The solver on the one-month scenario returns 0% through the tolerance
branch. -/
lemma breakEven_one : computeBreakEvenReturn 1 1 0 1 0 1 = some 0 := by
  rw [computeBreakEvenReturn]
  rw [if_pos (by rw [applesDelta_one]; norm_num)]

/-- Full evaluation of the one-month apples run at a 0% expected return. -/
lemma apples_one_eval : simulateApplesPaths 1 1 0 1 0 1 0 =
    ⟨⟨1, [⟨1, 0, 0, 1, 0, 0, 0, 0⟩], 0, 0⟩,
     ⟨1, [⟨1, 0, 0, 1, 0, 0, 0, 0⟩], 0, 0⟩, ⟨0, 0, 0⟩⟩ := by
  simp only [simulateApplesPaths, applesGo_one, monthlyRateFromAPR_zero]
  simp [applesStep]

/-- Complete end-to-end evaluation of the journey on the one-month input
`{1, 1, 0, 1, 0, 0}`. -/
lemma journey_one : calculateDualLedgerJourney ⟨1, 1, 0, 1, 0, 0⟩ =
    .ok
      { baseline := ⟨1, 0, [⟨1, 0, 0, 1⟩]⟩
        withOverpay := ⟨1, 0, [⟨1, 0, 0, 1⟩]⟩
        interestSaved := 0
        monthsSaved := 0
        requiredMonthlyPayment := 1
        fair :=
          { requiredMonthlyPayment := 1
            investPath := ⟨1, [⟨1, 0, 0, 1, 0, 0, 0, 0⟩], 0, 0⟩
            overpayPath := ⟨1, [⟨1, 0, 0, 1, 0, 0, 0, 0⟩], 0, 0⟩
            deltaWealthByMonth := [0]
            crossoverMonth := some 1
            breakEvenAnnualReturnPercent := some 0
            atN := ⟨0, 0, 0⟩ } } := by
  rw [calculateDualLedgerJourney]
  simp only [monthlyRateFromAPR_zero]
  rw [if_neg (by norm_num), if_neg (by norm_num), if_neg (by norm_num),
    if_neg (by norm_num), if_neg (by norm_num), if_neg (by norm_num)]
  rw [show ((1 : ℤ).toNat) = 1 from rfl,
    show ((1 : ℝ) + 0) = 1 by norm_num, simLoan_one]
  simp [apples_one_eval, breakEven_one, crossoverScan]

/-- The converted monthly rate is never negative (the base of the root is at
least 1). -/
lemma monthlyRateFromAPR_nonneg (a : ℝ) : 0 ≤ monthlyRateFromAPR a := by
  rw [monthlyRateFromAPR, sub_nonneg]
  calc (1 : ℝ) = (1 : ℝ) ^ ((1 : ℝ) / 12) := (Real.one_rpow _).symm
    _ ≤ (1 + max 0 a / 100) ^ ((1 : ℝ) / 12) := by
        apply Real.rpow_le_rpow (by norm_num) ?_ (by norm_num)
        have : (0 : ℝ) ≤ max 0 a / 100 := by positivity
        linarith

/-- The rate conversion is monotone in the annual percentage. -/
lemma monthlyRateFromAPR_mono {a b : ℝ} (h : a ≤ b) :
    monthlyRateFromAPR a ≤ monthlyRateFromAPR b := by
  rw [monthlyRateFromAPR, monthlyRateFromAPR]
  apply sub_le_sub_right
  apply Real.rpow_le_rpow (by positivity) ?_ (by norm_num)
  have : max 0 a ≤ max 0 b := max_le_max le_rfl h
  linarith

/-- The invest-path pot stays nonnegative along the loop when the monthly
investment rate and the contribution are nonnegative. -/
lemma applesGo_potInvest_nonneg (rLoan_m : ℝ) {rInv_m O : ℝ} (R : ℝ) (M : ℕ)
    (hri : 0 ≤ rInv_m) (hO : 0 ≤ O) :
    ∀ (rem t : ℕ) (s : ApplesState), 0 ≤ s.potInvest →
      0 ≤ (applesGo rLoan_m rInv_m R O M t rem s).potInvest := by
  intro rem
  induction rem with
  | zero => intro t s h; exact h
  | succ rem ih =>
    intro t s h
    rw [applesGo_succ]
    apply ih
    show 0 ≤ s.potInvest + (s.potInvest * rInv_m + O)
    have := mul_nonneg h hri
    linarith

/-- The invest-path pot is monotone in the monthly investment rate: running
the loop from a smaller pot with a smaller (nonnegative) rate cannot
overtake the run with the larger rate. -/
lemma applesGo_potInvest_mono (rLoan_m R : ℝ) (M : ℕ) {rInv1 rInv2 O : ℝ}
    (hri1 : 0 ≤ rInv1) (hri : rInv1 ≤ rInv2) (hO : 0 ≤ O) :
    ∀ (rem t : ℕ) (s1 s2 : ApplesState), 0 ≤ s1.potInvest →
      s1.potInvest ≤ s2.potInvest →
      (applesGo rLoan_m rInv1 R O M t rem s1).potInvest ≤
        (applesGo rLoan_m rInv2 R O M t rem s2).potInvest := by
  intro rem
  induction rem with
  | zero => intro t s1 s2 _ h12; exact h12
  | succ rem ih =>
    intro t s1 s2 h0 h12
    rw [applesGo_succ, applesGo_succ]
    apply ih
    · show 0 ≤ s1.potInvest + (s1.potInvest * rInv1 + O)
      have := mul_nonneg h0 hri1
      linarith
    · show s1.potInvest + (s1.potInvest * rInv1 + O) ≤
        s2.potInvest + (s2.potInvest * rInv2 + O)
      nlinarith

/-- The overpay-path entry appended by one loop iteration, with the
let-bound quantities of the source substituted. -/
lemma applesStep_overpaySched (rLoan_m rInv_m R O : ℝ) (M t : ℕ) (s : ApplesState) :
    (applesStep rLoan_m rInv_m R O M t s).overpaySched = s.overpaySched ++
      [⟨t,
        (if t ≤ M then s.balOverpay - min (R + O - s.balOverpay * rLoan_m) s.balOverpay
          else 0),
        (if t ≤ M then s.balOverpay * rLoan_m else 0),
        (if t ≤ M then R + O else 0),
        s.potOverpay + (s.potOverpay * rInv_m + (if t ≤ M then 0 else R + O)),
        (if t ≤ M then 0 else R + O),
        s.potOverpay * rInv_m,
        (s.potOverpay + (s.potOverpay * rInv_m + (if t ≤ M then 0 else R + O))) -
          (if t ≤ M then s.balOverpay - min (R + O - s.balOverpay * rLoan_m) s.balOverpay
            else 0)⟩] := rfl

/-- Peeling the last iteration off the apples loop. -/
lemma applesGo_snoc (rLoan_m rInv_m R O : ℝ) (M : ℕ) :
    ∀ (rem t : ℕ) (s : ApplesState),
      applesGo rLoan_m rInv_m R O M t (rem + 1) s =
        applesStep rLoan_m rInv_m R O M (t + rem)
          (applesGo rLoan_m rInv_m R O M t rem s) := by
  intro rem
  induction rem with
  | zero =>
    intro t s
    rw [applesGo_succ, applesGo_zero, applesGo_zero, Nat.add_zero]
  | succ rem ih =>
    intro t s
    rw [applesGo_succ, ih, ← applesGo_succ,
      show t + 1 + rem = t + (rem + 1) by omega]

/-- The length of the overpay schedule grows by exactly one per iteration. -/
lemma applesGo_overpaySched_length (rLoan_m rInv_m R O : ℝ) (M : ℕ) :
    ∀ (rem t : ℕ) (s : ApplesState),
      (applesGo rLoan_m rInv_m R O M t rem s).overpaySched.length =
        s.overpaySched.length + rem := by
  intro rem
  induction rem with
  | zero => intro t s; rfl
  | succ rem ih =>
    intro t s
    rw [applesGo_succ, ih, applesStep_overpaySched, List.length_append]
    simp
    omega

/-- The overpay-path schedule entry at (0-based) index `k` of an `N`-month
apples run is exactly the entry the source pushes in month `k+1`, computed
from the loop state after `k` months. -/
lemma applesGo_overpaySched_get (rLoan_m rInv_m R O : ℝ) (M : ℕ)
    (init : ApplesState) (hinit : init.overpaySched = []) :
    ∀ (N k : ℕ), k < N →
      (applesGo rLoan_m rInv_m R O M 1 N init).overpaySched.get? k =
        (applesStep rLoan_m rInv_m R O M (k + 1)
          (applesGo rLoan_m rInv_m R O M 1 k init)).overpaySched.get? k := by
  intro N
  induction N with
  | zero => intro k hk; omega
  | succ N ih =>
    intro k hk
    have hlen : ∀ m : ℕ,
        (applesGo rLoan_m rInv_m R O M 1 m init).overpaySched.length = m := by
      intro m
      rw [applesGo_overpaySched_length, hinit]
      simp
    rcases Nat.lt_succ_iff_lt_or_eq.mp hk with h | h
    · rw [applesGo_snoc, applesStep_overpaySched,
        List.get?_append (by rw [hlen]; omega)]
      exact ih k h
    · subst h
      rw [applesGo_snoc, show 1 + k = k + 1 by omega]

end Engine

namespace TSEngine

/-- At 0% APR the simple-division rate is 0. -/
lemma monthlyRate_zero : Loan.monthlyRate 0 = 0 := by
  rw [Loan.monthlyRate, if_pos rfl]

/-- When the balance is zero the simulation loop exits with the accumulated
result, whatever fuel remains. -/
lemma simulateAux_stop (r : ℝ) (requiredPay overpay : ℤ) (fuel : ℕ) (balance : ℤ)
    (month : ℕ) (ti : ℤ) (sch : List ScheduleEntry) (h : balance = 0) :
    simulateAux r requiredPay overpay fuel balance month ti sch =
      ⟨sch, sch.length, (ti : ℝ) / 100⟩ := by
  cases fuel <;> simp [simulateAux, h]

/-- One iteration of the simulation loop on a nonzero balance. -/
lemma simulateAux_step (r : ℝ) (requiredPay overpay : ℤ) (fuel : ℕ) (balance : ℤ)
    (month : ℕ) (ti : ℤ) (sch : List ScheduleEntry) (h : ¬ balance = 0) :
    simulateAux r requiredPay overpay (fuel + 1) balance month ti sch =
      simulateAux r requiredPay overpay fuel
        (balance - min
          (if requiredPay + overpay - round ((balance : ℝ) * r) < 0 then 0
            else requiredPay + overpay - round ((balance : ℝ) * r)) balance)
        (month + 1) (ti + round ((balance : ℝ) * r))
        (sch ++ [⟨month, (balance : ℝ) / 100, ((round ((balance : ℝ) * r) : ℤ) : ℝ) / 100,
          ((min (if requiredPay + overpay - round ((balance : ℝ) * r) < 0 then 0
              else requiredPay + overpay - round ((balance : ℝ) * r)) balance : ℤ) : ℝ) / 100,
          (overpay : ℝ) / 100, (requiredPay : ℝ) / 100,
          ((balance - min
            (if requiredPay + overpay - round ((balance : ℝ) * r) < 0 then 0
              else requiredPay + overpay - round ((balance : ℝ) * r)) balance : ℤ) : ℝ) /
            100⟩]) := by
  simp [simulateAux, h]

/-- Every interest figure the TypeScript simulator records is an integer
number of pence divided by 100: the loop invariant. -/
lemma simulateAux_interest_pence (r : ℝ) (requiredPay overpay : ℤ) :
    ∀ (fuel : ℕ) (balance : ℤ) (month : ℕ) (ti : ℤ) (sch : List ScheduleEntry),
      (∀ e ∈ sch, ∃ k : ℤ, e.interest = (k : ℝ) / 100) →
      ∀ e ∈ (simulateAux r requiredPay overpay fuel balance month ti sch).schedule,
        ∃ k : ℤ, e.interest = (k : ℝ) / 100 := by
  intro fuel
  induction fuel with
  | zero =>
    intro balance month ti sch hsch
    rw [simulateAux]
    exact hsch
  | succ fuel ih =>
    intro balance month ti sch hsch
    by_cases h : balance = 0
    · rw [simulateAux_stop _ _ _ _ _ _ _ _ h]
      exact hsch
    · rw [simulateAux_step _ _ _ _ _ _ _ _ h]
      apply ih
      intro e he
      rcases List.mem_append.mp he with he | he
      · exact hsch e he
      · rcases List.mem_singleton.mp he with rfl
        exact ⟨round ((balance : ℝ) * r), rfl⟩

/-- The required payment on a 100-pence loan over one month at 0% APR is
100 pence. -/
lemma requiredMonthlyPayment_small : requiredMonthlyPayment 100 1 0 = 100 := by
  rw [requiredMonthlyPayment]
  simp only [monthlyRate_zero, if_pos rfl]
  norm_num

/-- Full run of the TypeScript simulator on a 100-pence, one-month, 0% APR
loan with no overpayment. -/
lemma simulate_small : simulate 100 1 0 0 =
    .ok ⟨[⟨0, 1, 0, 1, 0, 1, 0⟩], 1, 0⟩ := by
  rw [simulate, if_neg (by norm_num), monthlyRate_zero, requiredMonthlyPayment_small]
  rw [show ((1 : ℕ) + 6000) = 6000 + 1 from rfl,
    simulateAux_step 0 100 0 6000 100 0 0 [] (by norm_num)]
  norm_num
  rw [simulateAux_stop 0 100 0 6000 0 1 0 _ rfl]
  norm_num

/-- A zero-pence loan: the simulation loop exits immediately with an empty
schedule. -/
lemma simulate_zero : simulate 0 1 0 0 = .ok ⟨[], 0, 0⟩ := by
  rw [simulate, if_neg (by norm_num)]
  rw [simulateAux_stop _ _ _ _ _ _ _ _ rfl]
  norm_num

end TSEngine

/- ===== Claim theorems ===== -/

open Engine in
/-- Claim C1, amended: the break-even solver returns 0% exactly through its
tolerance branch — whenever the final-pot delta at a 0% annual return is
within the £1 absolute tolerance. A strictly positive delta at 0% (overpay
dominating) does not generally produce a 0% answer. -/
theorem claim_C1_theorem (P : ℝ) (N : ℕ) (rLoan_m R O : ℝ) (M : ℕ)
    (h : |(simulateApplesPaths P N rLoan_m R O M 0).atN.delta| < 1) :
    computeBreakEvenReturn P N rLoan_m R O M = some 0 := by
  rw [computeBreakEvenReturn, if_pos h]

open Engine in
/-- Witness for C1 (amended): a concrete parameter set with delta 0 at a 0%
return, on which the solver returns 0%. -/
theorem claim_C1_witness :
    |(simulateApplesPaths 1 1 0 1 0 1 0).atN.delta| < 1 ∧
      computeBreakEvenReturn 1 1 0 1 0 1 = some 0 :=
  have h : |(simulateApplesPaths 1 1 0 1 0 1 0).atN.delta| < 1 := by
    rw [applesDelta_one]; norm_num
  ⟨h, claim_C1_theorem 1 1 0 1 0 1 h⟩

open Engine in
/-- Counterexample to C1 as stated: on the validated journey input
`{1000, 3, 0%, 400, 150, 5%}` the solver parameters are `P = 1000`,
`N = baseline.months = 3`, `R = 400`, `O = 150`, `M = withOverpay.months = 2`;
the final-pot delta at a 0% return is `+100` (overpay strictly dominates),
yet the journey reports a `null` break-even rate, not 0%. -/
theorem claim_C1_counterexample :
    0 < (simulateApplesPaths 1000 3 (monthlyRateFromAPR 0) 400 150 2 0).atN.delta ∧
    (calculateDualLedgerJourney ⟨1000, 3, 0, 400, 150, 5⟩).map
      (fun r => r.fair.breakEvenAnnualReturnPercent) = .ok none := by
  constructor
  · rw [monthlyRateFromAPR_zero, applesDelta_b1000, monthlyRateFromAPR_zero]
    norm_num
  · exact journey_b1000_breakEven

open Engine in
/-- Claim C2, amended: the solver answers `null` under the equal-sign
condition only when the delta at 0% is at least the £1 tolerance in absolute
value (the tolerance branch is checked first and returns 0% otherwise). -/
theorem claim_C2_theorem (P : ℝ) (N : ℕ) (rLoan_m R O : ℝ) (M : ℕ)
    (h1 : 1 ≤ |(simulateApplesPaths P N rLoan_m R O M 0).atN.delta|)
    (h2 : jsign (simulateApplesPaths P N rLoan_m R O M 0).atN.delta =
      jsign (simulateApplesPaths P N rLoan_m R O M 100).atN.delta) :
    computeBreakEvenReturn P N rLoan_m R O M = none := by
  rw [computeBreakEvenReturn, if_neg (not_lt.mpr h1), if_pos h2]

open Engine in
/-- Witness for C2 (amended): the b1000 parameter set has delta 100 at 0%
and a positive delta at 100%, and the solver returns `null`. -/
theorem claim_C2_witness :
    1 ≤ |(simulateApplesPaths 1000 3 0 400 150 2 0).atN.delta| ∧
    jsign (simulateApplesPaths 1000 3 0 400 150 2 0).atN.delta =
      jsign (simulateApplesPaths 1000 3 0 400 150 2 100).atN.delta ∧
    computeBreakEvenReturn 1000 3 0 400 150 2 = none :=
  have h1 : 1 ≤ |(simulateApplesPaths 1000 3 0 400 150 2 0).atN.delta| := by
    rw [applesDelta_b1000, monthlyRateFromAPR_zero]; norm_num
  have h2 : jsign (simulateApplesPaths 1000 3 0 400 150 2 0).atN.delta =
      jsign (simulateApplesPaths 1000 3 0 400 150 2 100).atN.delta := by
    rw [jsign_pos (show (0:ℝ) < (simulateApplesPaths 1000 3 0 400 150 2 0).atN.delta by
        rw [applesDelta_b1000, monthlyRateFromAPR_zero]; norm_num),
      jsign_pos applesDelta_b1000_hundred_pos]
  ⟨h1, h2, claim_C2_theorem 1000 3 0 400 150 2 h1 h2⟩

open Engine in
/-- Counterexample to C2 as stated: on the validated journey input
`{10, 3, 0%, 4.5, 2, 5%}` (solver parameters `N = 3`, `M = 2`) the delta at
0% is 1/2 and the delta at 100% is also positive — the signs agree — yet
the journey reports break-even 0%, a numeric rate, not `null`. -/
theorem claim_C2_counterexample :
    jsign (simulateApplesPaths 10 3 (monthlyRateFromAPR 0) (9 / 2) 2 2 0).atN.delta =
      jsign (simulateApplesPaths 10 3 (monthlyRateFromAPR 0) (9 / 2) 2 2 100).atN.delta ∧
    (calculateDualLedgerJourney ⟨10, 3, 0, 9 / 2, 2, 5⟩).map
      (fun r => r.fair.breakEvenAnnualReturnPercent) = .ok (some 0) := by
  constructor
  · rw [monthlyRateFromAPR_zero]
    rw [jsign_pos (show (0:ℝ) < (simulateApplesPaths 10 3 0 (9 / 2) 2 2 0).atN.delta by
        rw [applesDelta_b10, monthlyRateFromAPR_zero]; norm_num),
      jsign_pos applesDelta_b10_hundred_pos]
  · exact journey_b10_breakEven

/-- Claim C3, amended: the two dual-ledger engines convert an annual
percentage `a ≥ 0` to the true monthly-compounding equivalent
`(1 + a/100)^(1/12) - 1`; the simple-journey engine's `Loan.monthlyRate`
does not (see the counterexample). -/
theorem claim_C3_theorem (a : ℝ) (ha : 0 ≤ a) :
    Engine.monthlyRateFromAPR a = (1 + a / 100) ^ ((1 : ℝ) / 12) - 1 ∧
    IndexEngine.annualToMonthlyRate a = (1 + a / 100) ^ ((1 : ℝ) / 12) - 1 := by
  constructor
  · rw [Engine.monthlyRateFromAPR, max_eq_right ha]
  · rw [IndexEngine.annualToMonthlyRate]
    by_cases h : a ≤ 0
    · rw [if_pos h]
      have ha0 : a = 0 := le_antisymm h ha
      subst ha0
      norm_num
    · rw [if_neg h]

/-- Witness for C3 (amended) at the annual rate 0. -/
theorem claim_C3_witness :
    (0 : ℝ) ≤ 0 ∧
    (Engine.monthlyRateFromAPR 0 = (1 + (0 : ℝ) / 100) ^ ((1 : ℝ) / 12) - 1 ∧
      IndexEngine.annualToMonthlyRate 0 = (1 + (0 : ℝ) / 100) ^ ((1 : ℝ) / 12) - 1) :=
  ⟨le_rfl, claim_C3_theorem 0 le_rfl⟩

/-- Counterexample to C3 as stated: `Loan.monthlyRate` from the
calculateRepaymentJourney engine (main.ts) converts 12% to `12/100/12 = 0.01`
— simple division by 12 — which differs from `(1 + 12/100)^(1/12) - 1`
(since `1.01^12 ≠ 1.12`). -/
theorem claim_C3_counterexample :
    TSEngine.Loan.monthlyRate 12 = 1 / 100 ∧
    (1 / 100 : ℝ) ≠ (1 + 12 / 100) ^ ((1 : ℝ) / 12) - 1 := by
  constructor
  · rw [TSEngine.Loan.monthlyRate, if_neg (by norm_num)]
    norm_num
  · intro h
    have hbase : ((1 : ℝ) + 12 / 100) ^ ((1 : ℝ) / 12) = 101 / 100 := by linarith
    have hpow : (((1 : ℝ) + 12 / 100) ^ ((1 : ℝ) / 12)) ^ (12 : ℕ) = 1 + 12 / 100 := by
      rw [← Real.rpow_natCast _ 12, ← Real.rpow_mul (by norm_num)]
      norm_num
    rw [hbase] at hpow
    norm_num at hpow

open Engine in
/-- Claim C4: on any input that passes the five validation guards but whose
stated monthly payment is below the first month's interest
`P * monthlyRateFromAPR(apr)`, the journey throws the explicit
loan-will-grow error instead of returning a result. -/
theorem claim_C4_theorem (i : Inputs)
    (h1 : 0 < i.outstandingBalance) (h2 : 1 ≤ i.remainingTermMonths)
    (h3 : 0 ≤ i.aprPercent) (h4 : 0 < i.currentMonthlyPayment)
    (h5 : 0 ≤ i.monthlyOverpayment)
    (h6 : i.currentMonthlyPayment <
      i.outstandingBalance * monthlyRateFromAPR i.aprPercent) :
    calculateDualLedgerJourney i = .error
      "Current payment is less than the first month's interest. The loan balance will increase." := by
  rw [calculateDualLedgerJourney, if_neg (not_le.mpr h1), if_neg (not_lt.mpr h2),
    if_neg (not_lt.mpr h3), if_neg (not_le.mpr h4), if_neg (not_lt.mpr h5),
    if_pos h6]

open Engine in
/-- Witness for C4: balance 1000 at 100% APR has first-month interest
`1000·(2^(1/12) - 1) > 1`, so a stated payment of 1 triggers the error. -/
theorem claim_C4_witness :
    (0 : ℝ) < 1000 ∧ (1 : ℤ) ≤ 3 ∧ (0 : ℝ) ≤ 100 ∧ (0 : ℝ) < 1 ∧ (0 : ℝ) ≤ 0 ∧
    (1 : ℝ) < 1000 * monthlyRateFromAPR 100 ∧
    calculateDualLedgerJourney ⟨1000, 3, 100, 1, 0, 0⟩ = .error
      "Current payment is less than the first month's interest. The loan balance will increase." :=
  have h6 : (1 : ℝ) < 1000 * monthlyRateFromAPR 100 := by
    rw [monthlyRateFromAPR_hundred]
    have := lt_twelfthRootTwo
    nlinarith
  ⟨by norm_num, by norm_num, by norm_num, by norm_num, le_rfl, h6,
    claim_C4_theorem ⟨1000, 3, 100, 1, 0, 0⟩ (by norm_num) (by norm_num)
      (by norm_num) (by norm_num) le_rfl h6⟩

open Engine in
/-- Claim C5, amended: in the engine.js dual-ledger facade, whenever the
balance is not positive, the term is below 1, the APR is negative, or the
overpayment is negative, the journey entry point returns a validation error
before any simulation runs — never a result. (The index.ts and main.ts
facades check only strict negativity of the balance, so a zero balance is
accepted there — see the counterexample.) -/
theorem claim_C5_theorem (i : Inputs)
    (h : i.outstandingBalance ≤ 0 ∨ i.remainingTermMonths < 1 ∨
      i.aprPercent < 0 ∨ i.monthlyOverpayment < 0) :
    ∃ msg, calculateDualLedgerJourney i = .error msg := by
  rw [calculateDualLedgerJourney]
  by_cases hb : i.outstandingBalance ≤ 0
  · exact ⟨_, by rw [if_pos hb]⟩
  · rw [if_neg hb]
    by_cases ht : i.remainingTermMonths < 1
    · exact ⟨_, by rw [if_pos ht]⟩
    · rw [if_neg ht]
      by_cases ha : i.aprPercent < 0
      · exact ⟨_, by rw [if_pos ha]⟩
      · rw [if_neg ha]
        by_cases hp : i.currentMonthlyPayment ≤ 0
        · exact ⟨_, by rw [if_pos hp]⟩
        · rw [if_neg hp]
          have ho : i.monthlyOverpayment < 0 := by tauto
          exact ⟨_, by rw [if_pos ho]⟩

open Engine in
/-- Witness for C5: a negative outstanding balance is rejected. -/
theorem claim_C5_witness :
    ((-5 : ℝ) ≤ 0 ∨ (3 : ℤ) < 1 ∨ (0 : ℝ) < 0 ∨ (0 : ℝ) < 0) ∧
    ∃ msg, calculateDualLedgerJourney ⟨-5, 3, 0, 1, 0, 0⟩ = .error msg :=
  ⟨Or.inl (by norm_num), claim_C5_theorem ⟨-5, 3, 0, 1, 0, 0⟩ (Or.inl (by norm_num))⟩

/-- Counterexample to C5 as stated: the main.ts journey entry point
`calculateRepaymentJourney` guards the balance only with
`outstandingBalance < 0`, so the input `{0, 1, 0%, 0}` — whose balance is
not > 0 — is accepted, and a full (empty-schedule) result is returned
instead of a validation error. -/
theorem claim_C5_counterexample :
    ¬ ((0 : ℝ) > 0) ∧
    TSEngine.calculateRepaymentJourney ⟨0, 1, 0, 0⟩ =
      .ok ⟨⟨[], 0, 0⟩, ⟨[], 0, 0⟩, 0, 0, []⟩ := by
  refine ⟨by norm_num, ?_⟩
  rw [TSEngine.calculateRepaymentJourney, if_neg (by norm_num)]
  norm_num [TSEngine.simulate_zero]

open Engine in
/-- Claim C6, amended: the amortization loop always stops within the safety
cap `CAP = maxMonths + 120`, and when it stops strictly before the cap the
last recorded balance is within `EPS = 1e-9` of zero (not necessarily
exactly zero). The cap-reached exit is reachable for facade-accepted inputs
(see the counterexample). -/
theorem claim_C6_theorem (balanceStart r_m payment : ℝ) (maxMonths : ℕ)
    (res : LoanSim) (h : simulateLoan balanceStart r_m payment maxMonths = .ok res) :
    res.months ≤ maxMonths + 120 ∧
      (res.months < maxMonths + 120 →
        (res.schedule.map (fun e => e.balance)).getLastD (max 0 balanceStart) ≤ EPS) := by
  rw [simulateLoan] at h
  have h2 := simulateLoanAux_ok_bounds r_m payment (max 0 balanceStart)
    (maxMonths + 120) (max 0 balanceStart) 0 0 [] (by simp) res h
  exact ⟨by omega, fun hlt => h2.2 (by omega)⟩

open Engine in
/-- Witness for C6 (amended): the one-month run stops at month 1 < 121 with
last balance 0 ≤ EPS. -/
theorem claim_C6_witness :
    simulateLoan 1 0 1 1 = .ok ⟨1, 0, [⟨1, 0, 0, 1⟩]⟩ ∧
    ((1 : ℕ) ≤ 1 + 120 ∧ ((1 : ℕ) < 1 + 120 →
      (([⟨1, 0, 0, 1⟩] : List LoanEntry).map (fun e => e.balance)).getLastD
        (max 0 1) ≤ EPS)) :=
  ⟨simLoan_one, claim_C6_theorem 1 0 1 1 _ simLoan_one⟩

open Engine in
/-- Counterexample to C6 as stated: the input `{1000, 3, 0%, 0.001, 0, 0}`
passes every facade check (at 0% APR the first-month interest is 0), yet the
baseline loop runs to the safety cap `3 + 120 = 123` months and the final
balance `1000 - 0.123` is far from zero — the cap-reached exit is
reachable and the balance does not reach zero. -/
theorem claim_C6_counterexample :
    (calculateDualLedgerJourney ⟨1000, 3, 0, 1 / 1000, 0, 0⟩).map
      (fun r => (r.baseline.months,
        (r.baseline.schedule.map (fun e => e.balance)).getLastD 1000)) =
      .ok (3 + 120, 1000 - 123 * (1 / 1000)) ∧
    ((1000 : ℝ) - 123 * (1 / 1000)) ≠ 0 := by
  refine ⟨?_, by norm_num⟩
  rw [journey_smallpay]

open Engine in
/-- Claim C7: with a zero monthly overpayment the two simulations coincide,
so a successful journey reports `monthsSaved = 0` and `interestSaved = 0`. -/
theorem claim_C7_theorem (i : Inputs) (hO : i.monthlyOverpayment = 0)
    (r : JourneyResult) (h : calculateDualLedgerJourney i = .ok r) :
    r.monthsSaved = 0 ∧ r.interestSaved = 0 := by
  rw [calculateDualLedgerJourney, hO, add_zero] at h
  split_ifs at h
  cases hsim : simulateLoan i.outstandingBalance (monthlyRateFromAPR i.aprPercent)
      i.currentMonthlyPayment i.remainingTermMonths.toNat with
  | error e =>
    rw [hsim] at h
    exact Except.noConfusion h
  | ok B =>
    rw [hsim] at h
    simp only [Except.ok.injEq] at h
    subst h
    refine ⟨?_, ?_⟩
    · show B.months - B.months = 0
      omega
    · show max 0 (B.totalInterest - B.totalInterest) = 0
      simp

open Engine in
/-- Witness for C7: the full journey on `{1, 1, 0, 1, 0, 0}` succeeds with
`monthsSaved = 0` and `interestSaved = 0`. -/
theorem claim_C7_witness :
    calculateDualLedgerJourney ⟨1, 1, 0, 1, 0, 0⟩ = .ok
      ⟨⟨1, 0, [⟨1, 0, 0, 1⟩]⟩, ⟨1, 0, [⟨1, 0, 0, 1⟩]⟩, 0, 0, 1,
        ⟨1, ⟨1, [⟨1, 0, 0, 1, 0, 0, 0, 0⟩], 0, 0⟩,
          ⟨1, [⟨1, 0, 0, 1, 0, 0, 0, 0⟩], 0, 0⟩, [0], some 1, some 0,
          ⟨0, 0, 0⟩⟩⟩ ∧
    (⟨⟨1, 0, [⟨1, 0, 0, 1⟩]⟩, ⟨1, 0, [⟨1, 0, 0, 1⟩]⟩, 0, 0, 1,
        ⟨1, ⟨1, [⟨1, 0, 0, 1, 0, 0, 0, 0⟩], 0, 0⟩,
          ⟨1, [⟨1, 0, 0, 1, 0, 0, 0, 0⟩], 0, 0⟩, [0], some 1, some 0,
          ⟨0, 0, 0⟩⟩⟩ : JourneyResult).monthsSaved = 0 ∧
    (⟨⟨1, 0, [⟨1, 0, 0, 1⟩]⟩, ⟨1, 0, [⟨1, 0, 0, 1⟩]⟩, 0, 0, 1,
        ⟨1, ⟨1, [⟨1, 0, 0, 1, 0, 0, 0, 0⟩], 0, 0⟩,
          ⟨1, [⟨1, 0, 0, 1, 0, 0, 0, 0⟩], 0, 0⟩, [0], some 1, some 0,
          ⟨0, 0, 0⟩⟩⟩ : JourneyResult).interestSaved = 0 :=
  have h := claim_C7_theorem ⟨1, 1, 0, 1, 0, 0⟩ rfl _ journey_one
  ⟨journey_one, h.1, h.2⟩

open Engine in
/-- Claim C8: with a nonnegative overpayment stream, the invest-path final
pot at the comparison horizon is monotonically non-decreasing in the
expected annual return percentage (both rates ≥ 0). -/
theorem claim_C8_theorem (P : ℝ) (N : ℕ) (rLoan_m R O : ℝ) (M : ℕ)
    (r1 r2 : ℝ) (hO : 0 ≤ O) (h1 : 0 ≤ r1) (h2 : r1 ≤ r2) :
    (simulateApplesPaths P N rLoan_m R O M r1).atN.investPot ≤
      (simulateApplesPaths P N rLoan_m R O M r2).atN.investPot := by
  simp only [simulateApplesPaths]
  exact applesGo_potInvest_mono rLoan_m R M (monthlyRateFromAPR_nonneg r1)
    (monthlyRateFromAPR_mono h2) hO N 1 _ _ le_rfl le_rfl

open Engine in
/-- Witness for C8 at rates 0 and 5 on the one-month scenario. -/
theorem claim_C8_witness :
    (0 : ℝ) ≤ 0 ∧ (0 : ℝ) ≤ 0 ∧ (0 : ℝ) ≤ 5 ∧
    (simulateApplesPaths 1 1 0 1 0 1 0).atN.investPot ≤
      (simulateApplesPaths 1 1 0 1 0 1 5).atN.investPot :=
  ⟨le_rfl, le_rfl, by norm_num,
    claim_C8_theorem 1 1 0 1 0 1 0 5 le_rfl le_rfl (by norm_num)⟩

/-- Claim C9, amended: the TypeScript simulator (main.ts) rounds each
month's interest to the nearest penny, so every recorded interest figure is
an integer number of pence over 100; the JavaScript `simulateLoan`
(engine.js) does not round (see the counterexample). -/
theorem claim_C9_theorem (principalPence : ℤ) (remainingMonths : ℕ)
    (aprPercent : ℝ) (overpayPence : ℤ) (s : TSEngine.Simulation)
    (h : TSEngine.simulate principalPence remainingMonths aprPercent overpayPence =
      .ok s) :
    ∀ e ∈ s.schedule, ∃ k : ℤ, e.interest = (k : ℝ) / 100 := by
  rw [TSEngine.simulate] at h
  by_cases ho : overpayPence < 0
  · rw [if_pos ho] at h
    exact Except.noConfusion h
  · rw [if_neg ho] at h
    simp only [Except.ok.injEq] at h
    subst h
    exact TSEngine.simulateAux_interest_pence _ _ _ _ _ _ _ _ (by simp)

/-- Witness for C9 (amended): on the 100-pence one-month loan the single
recorded interest figure is an integer number of pence over 100. -/
theorem claim_C9_witness :
    TSEngine.simulate 100 1 0 0 = .ok ⟨[⟨0, 1, 0, 1, 0, 1, 0⟩], 1, 0⟩ ∧
    ∃ k : ℤ, (⟨0, 1, 0, 1, 0, 1, 0⟩ : TSEngine.ScheduleEntry).interest =
      (k : ℝ) / 100 :=
  ⟨TSEngine.simulate_small,
    claim_C9_theorem 100 1 0 0 _ TSEngine.simulate_small
      ⟨0, 1, 0, 1, 0, 1, 0⟩ (by simp)⟩

open Engine in
/-- Counterexample to C9 as stated: the JavaScript `simulateLoan` carries
the raw product `balance * monthlyRate` forward without rounding — at
balance 1000 and monthly rate 1/3000 the recorded first-month interest is
exactly 1/3 pound, which is not an integer number of minor units. -/
theorem claim_C9_counterexample :
    simulateLoan 1000 (1 / 3000) 2000 12 = .ok ⟨1, 1 / 3, [⟨1, 0, 1 / 3, 2000⟩]⟩ ∧
    ¬ ∃ k : ℤ, ((1 : ℝ) / 3) = (k : ℝ) / 100 := by
  refine ⟨simLoan_fractional, ?_⟩
  rintro ⟨k, hk⟩
  have h1 : (100 : ℝ) = 3 * (k : ℝ) := by
    field_simp at hk
    linarith
  have h2 : (100 : ℤ) = 3 * k := by exact_mod_cast h1
  omega

open Engine in
/-- Claim C10: the overpay-path entry for month `k+1` of the apples
simulation, computed from the loop state after `k` months: while `k+1 ≤ M`
the scheduled payment is `R+O`, the applied principal is capped by `min` at
the remaining balance, and the investment contribution is 0 (the pot gains
only its growth — any excess of `R+O` over interest plus balance leaves the
model); from month `M+1` the payment is 0 and the whole `R+O` is contributed
to the pot. -/
theorem claim_C10_theorem (P : ℝ) (N : ℕ) (rLoan_m R O : ℝ) (M : ℕ) (rA : ℝ)
    (k : ℕ) (hk : k < N) :
    (simulateApplesPaths P N rLoan_m R O M rA).overpayPath.schedule.get? k =
      some ⟨k + 1,
        (if k + 1 ≤ M then
          (applesGo rLoan_m (monthlyRateFromAPR rA) R O M 1 k
              ⟨P, P, 0, 0, [], []⟩).balOverpay -
            min (R + O - (applesGo rLoan_m (monthlyRateFromAPR rA) R O M 1 k
                ⟨P, P, 0, 0, [], []⟩).balOverpay * rLoan_m)
              (applesGo rLoan_m (monthlyRateFromAPR rA) R O M 1 k
                ⟨P, P, 0, 0, [], []⟩).balOverpay
          else 0),
        (if k + 1 ≤ M then
          (applesGo rLoan_m (monthlyRateFromAPR rA) R O M 1 k
              ⟨P, P, 0, 0, [], []⟩).balOverpay * rLoan_m else 0),
        (if k + 1 ≤ M then R + O else 0),
        (applesGo rLoan_m (monthlyRateFromAPR rA) R O M 1 k
            ⟨P, P, 0, 0, [], []⟩).potOverpay +
          ((applesGo rLoan_m (monthlyRateFromAPR rA) R O M 1 k
              ⟨P, P, 0, 0, [], []⟩).potOverpay * monthlyRateFromAPR rA +
            (if k + 1 ≤ M then 0 else R + O)),
        (if k + 1 ≤ M then 0 else R + O),
        (applesGo rLoan_m (monthlyRateFromAPR rA) R O M 1 k
            ⟨P, P, 0, 0, [], []⟩).potOverpay * monthlyRateFromAPR rA,
        ((applesGo rLoan_m (monthlyRateFromAPR rA) R O M 1 k
            ⟨P, P, 0, 0, [], []⟩).potOverpay +
          ((applesGo rLoan_m (monthlyRateFromAPR rA) R O M 1 k
              ⟨P, P, 0, 0, [], []⟩).potOverpay * monthlyRateFromAPR rA +
            (if k + 1 ≤ M then 0 else R + O))) -
          (if k + 1 ≤ M then
            (applesGo rLoan_m (monthlyRateFromAPR rA) R O M 1 k
                ⟨P, P, 0, 0, [], []⟩).balOverpay -
              min (R + O - (applesGo rLoan_m (monthlyRateFromAPR rA) R O M 1 k
                  ⟨P, P, 0, 0, [], []⟩).balOverpay * rLoan_m)
                (applesGo rLoan_m (monthlyRateFromAPR rA) R O M 1 k
                  ⟨P, P, 0, 0, [], []⟩).balOverpay
            else 0)⟩ := by
  simp only [simulateApplesPaths]
  rw [applesGo_overpaySched_get rLoan_m (monthlyRateFromAPR rA) R O M
    ⟨P, P, 0, 0, [], []⟩ rfl N k hk]
  rw [applesStep_overpaySched]
  have hlen : (applesGo rLoan_m (monthlyRateFromAPR rA) R O M 1 k
      ⟨P, P, 0, 0, [], []⟩).overpaySched.length = k := by
    rw [applesGo_overpaySched_length]
    simp
  have hc : ∀ (l : List PathEntry) (a : PathEntry), l.length = k →
      (l ++ [a]).get? k = some a := by
    intro l a hl
    rw [← hl, List.get?_concat_length]
  rw [hc _ _ hlen]

open Engine in
/-- Witness for C10 at `P = 10`, `N = 2`, `M = 1`, month index `k = 1`
(the snowball month `M + 1 = 2`): payment 0, contribution `R + O`. -/
theorem claim_C10_witness :
    (1 : ℕ) < 2 ∧
    (simulateApplesPaths 10 2 0 4 3 1 0).overpayPath.schedule.get? 1 =
      some ⟨2, 0, 0, 0,
        (applesGo 0 (monthlyRateFromAPR 0) 4 3 1 1 1
            ⟨10, 10, 0, 0, [], []⟩).potOverpay +
          ((applesGo 0 (monthlyRateFromAPR 0) 4 3 1 1 1
              ⟨10, 10, 0, 0, [], []⟩).potOverpay * monthlyRateFromAPR 0 + (4 + 3)),
        4 + 3,
        (applesGo 0 (monthlyRateFromAPR 0) 4 3 1 1 1
            ⟨10, 10, 0, 0, [], []⟩).potOverpay * monthlyRateFromAPR 0,
        ((applesGo 0 (monthlyRateFromAPR 0) 4 3 1 1 1
            ⟨10, 10, 0, 0, [], []⟩).potOverpay +
          ((applesGo 0 (monthlyRateFromAPR 0) 4 3 1 1 1
              ⟨10, 10, 0, 0, [], []⟩).potOverpay * monthlyRateFromAPR 0 + (4 + 3))) -
          0⟩ :=
  ⟨by norm_num, claim_C10_theorem 10 2 0 4 3 1 0 1 (by norm_num)⟩

end UKLoan
